import Mathlib

/-!
Verification development for the LLM email secretary repository.

The embedding models the IMAP backend (the Proton Mail Bridge connection
used by `EmailProcessor`) as a static environment `Conn` whose fields give
the result of each protocol primitive.  Python exceptions raised by a
primitive and non-OK statuses are collapsed into a single failure value
exactly where the source treats them identically (each per-format `copy`
and `select` attempt sits in its own try/except that continues on both);
where the source distinguishes them (`store`/`expunge`, whose non-OK
status is handled in-line while an exception falls through to the outer
retry handler), the three-valued `PResult` keeps them apart.  Every
function of the model is translated from the corresponding function of
`email_processor.py`, `classifier.py`, `llm_client.py`, `folder_manager.py`
and `config.py`.
-/

/-- Result of a protocol primitive where the source distinguishes a
non-OK status (`bad`) from a raised exception (`exn`). -/
inductive PResult where
  | ok
  | bad
  | exn
deriving DecidableEq, Repr

/-- Static model of the IMAP connection: each field gives the (deterministic)
result of one protocol primitive of `imaplib` as used by `EmailProcessor`.
`listFolders` is the already-parsed folder-name list that `get_folders`
extracts from the raw LIST response (the regex extraction itself is not
needed by any claim). -/
structure Conn where
  /-- Whether `connect()` succeeds. -/
  connectOk : Bool
  /-- Parsed folder names, as produced by `get_folders`. -/
  listFolders : List String
  /-- `connection.select(name)`: `some count` on an OK status, `none` on a
  non-OK status or exception. -/
  select : String → Option Nat
  /-- `connection.search(None, criteria)`: `some ids` on OK, else `none`. -/
  search : String → Option (List String)
  /-- Size in bytes of the RFC822 payload returned by `connection.fetch`,
  `none` when the fetch fails. -/
  fetchSize : String → Option Nat
  /-- Whether `b'MOVE'` is in `connection.capabilities`. -/
  capaMove : Bool
  /-- `connection.uid('MOVE', id, dest)` returns status OK. -/
  uidMove : String → String → Bool
  /-- `connection.copy(id, fmt)` returns status OK. -/
  copy : String → String → Bool
  /-- `connection.store(id, '+FLAGS', '\\Deleted')`. -/
  storeDeleted : String → PResult
  /-- `connection.store(id, '+FLAGS', 'PROCESSED')` returns status OK
  (exceptions are caught inside `mark_as_processed` and count as failure). -/
  storeProcessed : String → Bool
  /-- `connection.expunge()`. -/
  expunge : PResult

/-- Python `str.lower()` on the names and texts this program handles,
modelled as the per-character lowering. -/
def strLower (s : String) : String := ⟨s.data.map Char.toLower⟩

/-- Python `str.upper()`, modelled as the per-character uppering. -/
def strUpper (s : String) : String := ⟨s.data.map Char.toUpper⟩

/-- The quoted variant `'"{name}"'` used by several format lists. -/
def quoteName (name : String) : String := "\"" ++ name ++ "\""

/-- `formats_to_try` of `EmailProcessor.select_folder` (lines 211-218):
the ordered candidate list probed by the folder-resolution select. -/
def formatsToTrySelect (name : String) : List String :=
  [name,
   quoteName name,
   "INBOX/" ++ name,
   "INBOX." ++ name,
   "Folders/" ++ name,
   "Labels/" ++ name]

/-- `formats_to_try` of the copy fallback inside `EmailProcessor.move_email`
(lines 607-616): the ordered candidate list tried by `connection.copy`. -/
def formatsToTryCopy (name : String) : List String :=
  [name,
   quoteName name,
   "INBOX/" ++ name,
   "INBOX." ++ name,
   "Folders/" ++ name,
   "Labels/" ++ name,
   strUpper name,
   strLower name]

/-- `formats_to_check` of `EmailProcessor.folder_exists` (lines 510-517):
variants looked up in the parsed folder list. -/
def formatsToCheckExists (name : String) : List String :=
  [strUpper name,
   strLower name,
   "INBOX/" ++ name,
   "INBOX." ++ name,
   "Folders/" ++ name,
   "Labels/" ++ name]

/-- `formats_to_try` of `EmailProcessor.folder_exists` (lines 525-534):
variants probed with a direct select. -/
def formatsToTryExists (name : String) : List String :=
  [name,
   quoteName name,
   strUpper name,
   strLower name,
   "INBOX/" ++ name,
   "INBOX." ++ name,
   "Folders/" ++ name,
   "Labels/" ++ name]

/-- `EmailProcessor.select_folder`: try each candidate format; the first
select that returns an OK status yields the message count; if every format
fails (non-OK or exception) return `-1`. -/
def select_folder (c : Conn) (folderName : String) : Int :=
  match (formatsToTrySelect folderName).findSome? c.select with
  | some n => (n : Int)
  | none => -1

/-- `EmailProcessor.search_emails`: a failed search (non-OK status or
exception) yields the empty id list. -/
def search_emails (c : Conn) (criteria : String) : List String :=
  match c.search criteria with
  | some ids => ids
  | none => []

/-- `EmailProcessor.folder_exists`: the folder list is consulted first
(exact name, then the checked variants), then each select-probe variant is
tried; any OK select confirms existence. -/
def folder_exists (c : Conn) (folderName : String) : Bool :=
  if folderName ∈ c.listFolders then
    true
  else if (formatsToCheckExists folderName).any (fun fmt => fmt ∈ c.listFolders) then
    true
  else
    (formatsToTryExists folderName).any (fun fmt => (c.select fmt).isSome)

/-- `EmailProcessor.get_unprocessed_emails`: a select result `<= 0`
short-circuits to the empty list; otherwise search (with the KEYWORD
criteria when `skip_processed` is set) and truncate to `limit` when the
limit is truthy and exceeded. -/
def get_unprocessed_emails (c : Conn) (skipProcessed : Bool) (folderName : String)
    (limit : Option Nat) : List String :=
  if select_folder c folderName ≤ 0 then
    []
  else
    let email_ids :=
      if !skipProcessed then search_emails c "ALL"
      else search_emails c "NOT KEYWORD PROCESSED"
    match limit with
    | some l => if l ≠ 0 ∧ email_ids.length > l then email_ids.take l else email_ids
    | none => email_ids

/-- Parsed email data; only the identity matters to the batch loop's
control flow, the remaining fields feed the classification prompt. -/
structure EmailData where
  id : String
deriving DecidableEq, Repr

/-- `EmailProcessor.fetch_email`: a failed fetch returns `none`; a payload
whose size in KB (`len(raw)/1024`) exceeds `max_email_size_kb` returns
`none` before any further processing. -/
def fetch_email (c : Conn) (maxEmailSizeKb : Nat) (emailId : String) : Option EmailData :=
  match c.fetchSize emailId with
  | none => none
  | some rawLen =>
    if rawLen > maxEmailSizeKb * 1024 then none
    else some ⟨emailId⟩

/-- `EmailProcessor.mark_as_processed`: stores the custom PROCESSED flag;
the result reports whether the store returned OK. -/
def mark_as_processed (c : Conn) (emailId : String) : Bool :=
  c.storeProcessed emailId

/-- Observable result of one `move_email` call.  `success` is the Python
return value; `markCalls` counts the `mark_as_processed` invocations made
inside `move_email`; `movedOut` records whether the message actually left
the source folder (native MOVE succeeded, or copy + delete + expunge all
succeeded); `attempts` counts executed retry-loop iterations and `sleeps`
the inter-attempt delays taken. -/
structure MoveResult where
  success : Bool
  markCalls : Nat
  movedOut : Bool
  attempts : Nat
  sleeps : Nat
deriving DecidableEq, Repr

/-- Account for one more executed loop iteration that ended in
`time.sleep(retry_delay); continue`. -/
def MoveResult.afterRetry (r : MoveResult) : MoveResult :=
  { r with attempts := r.attempts + 1, sleeps := r.sleeps + 1 }

/-- The retry loop of `EmailProcessor.move_email` (lines 587-674).  `fuel`
is the number of iterations still available, so the call with
`fuel = max_retries = 3` models `for retry in range(3)` and an iteration
is the last one (`retry == max_retries - 1`) exactly when `fuel = 1`.
Per iteration: attempt the native MOVE when advertised (any exception or
non-OK status falls through); attempt the copy over every destination
format (first OK wins); a copy failure retries with a delay or, on the
last attempt, marks processed and returns failure; after a successful
copy, a non-OK store or expunge status marks processed and returns
success, while a store or expunge exception reaches the outer handler and
retries or, on the last attempt, marks processed and returns failure. -/
def moveRetryLoop (c : Conn) (emailId destinationFolder : String) : Nat → MoveResult
  | 0 => { success := false, markCalls := 0, movedOut := false, attempts := 0, sleeps := 0 }
  | fuel + 1 =>
    if c.capaMove && c.uidMove emailId destinationFolder then
      { success := true, markCalls := 0, movedOut := true, attempts := 1, sleeps := 0 }
    else if !((formatsToTryCopy destinationFolder).any (fun fmt => c.copy emailId fmt)) then
      if fuel == 0 then
        { success := false, markCalls := 1, movedOut := false, attempts := 1, sleeps := 0 }
      else
        (moveRetryLoop c emailId destinationFolder fuel).afterRetry
    else
      match c.storeDeleted emailId with
      | PResult.bad =>
        { success := true, markCalls := 1, movedOut := false, attempts := 1, sleeps := 0 }
      | PResult.ok =>
        match c.expunge with
        | PResult.bad =>
          { success := true, markCalls := 1, movedOut := false, attempts := 1, sleeps := 0 }
        | PResult.ok =>
          { success := true, markCalls := 0, movedOut := true, attempts := 1, sleeps := 0 }
        | PResult.exn =>
          if fuel == 0 then
            { success := false, markCalls := 1, movedOut := false, attempts := 1, sleeps := 0 }
          else
            (moveRetryLoop c emailId destinationFolder fuel).afterRetry
      | PResult.exn =>
        if fuel == 0 then
          { success := false, markCalls := 1, movedOut := false, attempts := 1, sleeps := 0 }
        else
          (moveRetryLoop c emailId destinationFolder fuel).afterRetry

/-- `max_retries` of `move_email`. -/
def maxRetries : Nat := 3

/-- `EmailProcessor.move_email` (lines 556-674): a destination that fails
the `folder_exists` probe marks processed and returns failure without any
move attempt; an unselectable source folder returns failure without
marking (the caller marks in that case); otherwise the retry loop runs
with `max_retries = 3`. -/
def move_email (c : Conn) (emailId sourceFolder destinationFolder : String) : MoveResult :=
  if !(folder_exists c destinationFolder) then
    { success := false, markCalls := 1, movedOut := false, attempts := 0, sleeps := 0 }
  else if select_folder c sourceFolder ≤ 0 then
    { success := false, markCalls := 0, movedOut := false, attempts := 0, sleeps := 0 }
  else
    moveRetryLoop c emailId destinationFolder maxRetries

/-- `EMAIL_CATEGORIES` of `config.py` (lines 44-49), as an ordered
association list (Python dicts preserve insertion order). -/
def EMAIL_CATEGORIES : List (String × String) :=
  [("requires_manual_intervention", "Folders/ManualReview"),
   ("bills", "Folders/Bills"),
   ("promotional", "Folders/Promotions")]

/-- The run-relevant fields of `PROCESSING_CONFIG` plus the `DRY_RUN`
environment switch read by `process_emails`.  `maxEmailsPerRun` is an
`Int` because the value comes from `int(os.getenv(...))`. -/
structure ProcConfig where
  foldersToProcess : List String
  maxEmailsPerRun : Int
  batchSize : Nat
  maxEmailSizeKb : Nat
  skipProcessed : Bool
  dryRun : Bool

/-- Environment of one `process_emails` run.  `processor` models
`processor_func`: `Except.error` is a raised exception (handled by the
per-message `except` branch), `Except.ok` its return value, `none` being
Python `None`. -/
structure RunEnv where
  conn : Conn
  cfg : ProcConfig
  categories : List (String × String)
  processor : EmailData → Except Unit (Option String)

/-- The two counters of `process_emails`. -/
structure Counts where
  processed : Nat
  success : Nat
deriving DecidableEq, Repr

/-- Terminal outcome of the batch loop for one fetched id.  Constructors
follow the branches of `process_emails` (lines 747-787): a failed fetch is
skipped; the dry-run / missing-destination branch marks processed; a
`move_email` returning `True` counts as success with no caller-side mark;
a `move_email` returning `False` is marked processed by the caller; an
unknown category or a raised exception is marked processed. -/
inductive MsgOutcome where
  | fetchFailed
  | markedDryRun
  | movedOk (r : MoveResult)
  | moveFailedMarked (r : MoveResult)
  | unknownCategoryMarked
  | exceptionMarked
deriving DecidableEq, Repr

/-- Whether the batch loop (or `move_email` on its behalf) invoked
`mark_as_processed` for a message that ended in this outcome. -/
def MsgOutcome.markInvoked : MsgOutcome → Bool
  | MsgOutcome.fetchFailed => false
  | MsgOutcome.markedDryRun => true
  | MsgOutcome.movedOk r => r.markCalls != 0
  | MsgOutcome.moveFailedMarked _ => true
  | MsgOutcome.unknownCategoryMarked => true
  | MsgOutcome.exceptionMarked => true

/-- Whether the message left the source folder. -/
def MsgOutcome.movedOut : MsgOutcome → Bool
  | MsgOutcome.movedOk r => r.movedOut
  | MsgOutcome.moveFailedMarked r => r.movedOut
  | _ => false

/-- The body of the per-id loop of `process_emails` (lines 747-787): fetch
(skipping the id entirely when the fetch returns nothing), count it
processed, classify, and route through the dry-run / move / unknown /
exception branches.  The `folder_exists_cache` consulted by
`should_dry_run` is populated from `folder_exists` for every category
folder before the loop, so its lookup equals `folder_exists` on the
destination. -/
def processOne (env : RunEnv) (sourceFolder : String) (acc : Counts) (emailId : String) :
    Counts × MsgOutcome :=
  match fetch_email env.conn env.cfg.maxEmailSizeKb emailId with
  | none => (acc, MsgOutcome.fetchFailed)
  | some emailData =>
    let acc1 : Counts := { acc with processed := acc.processed + 1 }
    match env.processor emailData with
    | Except.error _ => (acc1, MsgOutcome.exceptionMarked)
    | Except.ok none => (acc1, MsgOutcome.unknownCategoryMarked)
    | Except.ok (some category) =>
      if category = "" then (acc1, MsgOutcome.unknownCategoryMarked)
      else
        match env.categories.lookup category with
        | none => (acc1, MsgOutcome.unknownCategoryMarked)
        | some destinationFolder =>
          if env.cfg.dryRun || !(folder_exists env.conn destinationFolder) then
            ({ acc1 with success := acc1.success + 1 }, MsgOutcome.markedDryRun)
          else
            let r := move_email env.conn emailId sourceFolder destinationFolder
            if r.success then
              ({ acc1 with success := acc1.success + 1 }, MsgOutcome.movedOk r)
            else
              (acc1, MsgOutcome.moveFailedMarked r)

/-- Process the ids of one source folder in order, threading the counters
and recording each id's outcome.  The partition into batches of
`batch_size` only inserts pacing delays between batches and does not
change the order or the per-id processing, so the flattened traversal is
recorded directly. -/
def processIds (env : RunEnv) (sourceFolder : String) :
    List String → Counts → Counts × List (String × MsgOutcome)
  | [], acc => (acc, [])
  | emailId :: rest, acc =>
    let step := processOne env sourceFolder acc emailId
    let restResult := processIds env sourceFolder rest step.1
    (restResult.1, (emailId, step.2) :: restResult.2)

/-- The folder loop of `process_emails` (lines 732-790): per folder the
remaining budget is `max_emails_per_run - processed_count`; a budget
`<= 0` breaks out of the loop entirely; otherwise the unprocessed ids are
queried with the budget as limit and processed. -/
def processFolders (env : RunEnv) :
    List String → Counts → Counts × List (String × MsgOutcome)
  | [], acc => (acc, [])
  | folder :: restFolders, acc =>
    let remaining : Int := env.cfg.maxEmailsPerRun - (acc.processed : Int)
    if remaining ≤ 0 then (acc, [])
    else
      let email_ids :=
        get_unprocessed_emails env.conn env.cfg.skipProcessed folder (some remaining.toNat)
      let folderResult := processIds env folder email_ids acc
      let restResult := processFolders env restFolders folderResult.1
      (restResult.1, folderResult.2 ++ restResult.2)

/-- Result of one `process_emails` run: the returned pair of counters and
the per-id outcome trace. -/
structure RunResult where
  processedCount : Nat
  successCount : Nat
  trace : List (String × MsgOutcome)
deriving DecidableEq, Repr

/-- `EmailProcessor.process_emails` (lines 702-794): a failed connect
returns `(0, 0)`; otherwise the folder loop runs from zero counters. -/
def process_emails (env : RunEnv) : RunResult :=
  if !env.conn.connectOk then
    { processedCount := 0, successCount := 0, trace := [] }
  else
    let runResult := processFolders env env.cfg.foldersToProcess { processed := 0, success := 0 }
    { processedCount := runResult.1.processed,
      successCount := runResult.1.success,
      trace := runResult.2 }

/-- Python `str.strip()`: whitespace removed from both ends. -/
def stripChars (l : List Char) : List Char :=
  ((l.dropWhile Char.isWhitespace).reverse.dropWhile Char.isWhitespace).reverse

/-- `category.lower() in result` of `LLMClient.classify_email` line 194,
where `result` is the already stripped-and-lowered response text. -/
def categoryOccursIn (category : String) (result : List Char) : Bool :=
  decide ((strLower category).data <:+: result)

/-- The stripped-and-lowered oracle response the category matching runs
over (`result.strip().lower()`, line 190). -/
def normalizeResponse (s : String) : List Char :=
  (stripChars s.data).map Char.toLower

/-- The endpoint-fallback of `LLMClient.classify_email` (lines 183-186):
the chat completion's text, or — when that is `None` or empty (falsy) —
the plain completion's text. -/
def llmRawResult (chatResult complResult : Option String) : Option String :=
  match chatResult with
  | some s => if s = "" then complResult else some s
  | none => complResult

namespace LLMClient

/-- `LLMClient.classify_email` (lines 151-204), taking the two endpoint
results as the oracle's contribution: a falsy final result yields `none`;
otherwise the response is stripped and lowered and the first category (in
list order) whose lowered name occurs in it as a substring is returned;
no occurrence yields `none`. -/
def classify_email (chatResult complResult : Option String) (categories : List String) :
    Option String :=
  match llmRawResult chatResult complResult with
  | none => none
  | some result =>
    if result = "" then none
    else
      let r := normalizeResponse result
      categories.find? (fun category => categoryOccursIn category r)

end LLMClient

namespace EmailClassifier

/-- The category list the classifier is initialised with:
`list(EMAIL_CATEGORIES.keys())`. -/
def initCategories : List String := EMAIL_CATEGORIES.map Prod.fst

/-- `EmailClassifier.classify_email` (lines 34-69): empty email data gives
`None`; a falsy result from the LLM client (no match, oracle failure, or
empty category name) degrades to `'requires_manual_intervention'`; the
exception handler returns the same fallback, so oracle failure is never
fatal. -/
def classify_email (emailDataPresent : Bool) (chatResult complResult : Option String)
    (categories : List String) : Option String :=
  if !emailDataPresent then none
  else
    match LLMClient.classify_email chatResult complResult categories with
    | some category => if category = "" then some "requires_manual_intervention" else some category
    | none => some "requires_manual_intervention"

/-- `EmailClassifier.remove_category` (lines 108-138), acting on the
classifier's category list and the shared `EMAIL_CATEGORIES` map: a
category absent from the list, or the distinguished
`'requires_manual_intervention'`, is rejected; otherwise the category is
removed from the list and, when present, deleted from the map. -/
def remove_category (categories : List String) (categoryMap : List (String × String))
    (category : String) : Bool × List String × List (String × String) :=
  if category ∉ categories then (false, categories, categoryMap)
  else if category = "requires_manual_intervention" then (false, categories, categoryMap)
  else
    (true, categories.erase category,
     if (categoryMap.lookup category).isSome then
       categoryMap.eraseP (fun p => p.1 == category)
     else categoryMap)

end EmailClassifier

namespace FolderManager

/-- `FolderManager.remove_category_folder` (lines 153-174): a category
absent from the map, or the distinguished
`'requires_manual_intervention'`, is rejected leaving the map unchanged;
otherwise the entry is deleted. -/
def remove_category_folder (categoryMap : List (String × String)) (category : String) :
    Bool × List (String × String) :=
  if (categoryMap.lookup category).isNone then (false, categoryMap)
  else if category = "requires_manual_intervention" then (false, categoryMap)
  else (true, categoryMap.eraseP (fun p => p.1 == category))

end FolderManager

/-! ## Helper lemmas -/

theorem moveRetryLoop_success_marked (c : Conn) (emailId destinationFolder : String) :
    ∀ fuel, (moveRetryLoop c emailId destinationFolder fuel).success = true →
      (moveRetryLoop c emailId destinationFolder fuel).movedOut = true ∨
      (moveRetryLoop c emailId destinationFolder fuel).markCalls ≠ 0 := by
  intro fuel
  induction fuel with
  | zero => simp [moveRetryLoop]
  | succ n ih =>
    rw [moveRetryLoop]
    split
    · simp
    · split
      · split
        · simp
        · simpa [MoveResult.afterRetry] using ih
      · split
        · simp
        · split
          · simp
          · simp
          · split
            · simp
            · simpa [MoveResult.afterRetry] using ih
        · split
          · simp
          · simpa [MoveResult.afterRetry] using ih

theorem move_email_success_marked (c : Conn) (emailId sourceFolder destinationFolder : String)
    (h : (move_email c emailId sourceFolder destinationFolder).success = true) :
    (move_email c emailId sourceFolder destinationFolder).movedOut = true ∨
    (move_email c emailId sourceFolder destinationFolder).markCalls ≠ 0 := by
  revert h
  unfold move_email
  split
  · simp
  · split
    · simp
    · exact moveRetryLoop_success_marked c emailId destinationFolder maxRetries

theorem processOne_outcome_safe (env : RunEnv) (sourceFolder : String) (acc : Counts)
    (emailId : String)
    (h : (processOne env sourceFolder acc emailId).2 ≠ MsgOutcome.fetchFailed) :
    (processOne env sourceFolder acc emailId).2.movedOut = true ∨
    (processOne env sourceFolder acc emailId).2.markInvoked = true := by
  revert h
  unfold processOne
  split
  · simp
  · split
    · simp [MsgOutcome.markInvoked]
    · simp [MsgOutcome.markInvoked]
    · split
      · simp [MsgOutcome.markInvoked]
      · split
        · simp [MsgOutcome.markInvoked]
        · split
          · simp [MsgOutcome.markInvoked]
          · dsimp only
            split
            next hr =>
              intro _
              rcases move_email_success_marked env.conn emailId sourceFolder _ hr with hm | hm
              · exact Or.inl (by simpa [MsgOutcome.movedOut] using hm)
              · exact Or.inr (by simpa [MsgOutcome.markInvoked] using hm)
            · simp [MsgOutcome.markInvoked]

theorem processIds_outcome_safe (env : RunEnv) (sourceFolder : String) :
    ∀ (ids : List String) (acc : Counts) (emailId : String) (out : MsgOutcome),
      (emailId, out) ∈ (processIds env sourceFolder ids acc).2 →
      out ≠ MsgOutcome.fetchFailed →
      out.movedOut = true ∨ out.markInvoked = true := by
  intro ids
  induction ids with
  | nil => intro acc emailId out hmem; simp [processIds] at hmem
  | cons headId rest ih =>
    intro acc emailId out hmem hne
    simp only [processIds, List.mem_cons] at hmem
    rcases hmem with heq | hmem
    · have hout : out = (processOne env sourceFolder acc headId).2 := by
        injection heq with h1 h2
      rw [hout] at hne ⊢
      exact processOne_outcome_safe env sourceFolder acc headId hne
    · exact ih _ emailId out hmem hne

theorem processFolders_outcome_safe (env : RunEnv) :
    ∀ (folders : List String) (acc : Counts) (emailId : String) (out : MsgOutcome),
      (emailId, out) ∈ (processFolders env folders acc).2 →
      out ≠ MsgOutcome.fetchFailed →
      out.movedOut = true ∨ out.markInvoked = true := by
  intro folders
  induction folders with
  | nil => intro acc emailId out hmem; simp [processFolders] at hmem
  | cons folder rest ih =>
    intro acc emailId out hmem hne
    rw [processFolders] at hmem
    split at hmem
    · simp at hmem
    · simp only [List.mem_append] at hmem
      rcases hmem with hmem | hmem
      · exact processIds_outcome_safe env folder _ acc emailId out hmem hne
      · exact ih _ emailId out hmem hne

/-- C1: every message that is successfully fetched by the batch loop ends
the run in exactly one terminal outcome (the single `MsgOutcome` recorded
for it), and is never left both fetched and unmarked: either `move_email`
moved it out of the source folder, or `mark_as_processed` was invoked on
it in one of the marking branches (dry-run / missing destination, unknown
category, move failure, exception, or inside `move_email` itself). -/
theorem fetched_message_moved_or_marked (env : RunEnv) (emailId : String) (out : MsgOutcome)
    (hmem : (emailId, out) ∈ (process_emails env).trace)
    (hfetched : out ≠ MsgOutcome.fetchFailed) :
    out.movedOut = true ∨ out.markInvoked = true := by
  revert hmem
  unfold process_emails
  split
  · intro hmem; simp at hmem
  · intro hmem
    exact processFolders_outcome_safe env env.cfg.foldersToProcess _ emailId out hmem hfetched

/-- A one-message mailbox used to instantiate the batch-loop theorems:
INBOX holds one small unprocessed message that classifies as `bills`. -/
def demoConn : Conn :=
  { connectOk := true
    listFolders := ["Folders/Bills"]
    select := fun fmt => if fmt = "INBOX" then some 1 else none
    search := fun _ => some ["1"]
    fetchSize := fun _ => some 100
    capaMove := false
    uidMove := fun _ _ => false
    copy := fun _ _ => false
    storeDeleted := fun _ => PResult.ok
    storeProcessed := fun _ => true
    expunge := PResult.ok }

/-- A dry-run batch environment over `demoConn`. -/
def demoEnv : RunEnv :=
  { conn := demoConn
    cfg := { foldersToProcess := ["INBOX"], maxEmailsPerRun := 10, batchSize := 10,
             maxEmailSizeKb := 500, skipProcessed := true, dryRun := true }
    categories := EMAIL_CATEGORIES
    processor := fun _ => Except.ok (some "bills") }

theorem fetched_message_moved_or_marked_witness :
    (("1", MsgOutcome.markedDryRun) ∈ (process_emails demoEnv).trace ∧
     MsgOutcome.markedDryRun ≠ MsgOutcome.fetchFailed) ∧
    (MsgOutcome.markedDryRun.movedOut = true ∨ MsgOutcome.markedDryRun.markInvoked = true) :=
  ⟨⟨by decide, by decide⟩,
   fetched_message_moved_or_marked demoEnv "1" MsgOutcome.markedDryRun (by decide) (by decide)⟩

/-- A backend on which the copy step succeeds but the subsequent
`store '\\Deleted'` returns a non-OK status. -/
def dupConn : Conn :=
  { connectOk := true
    listFolders := ["Folders/Bills"]
    select := fun fmt => if fmt = "INBOX" then some 1 else none
    search := fun _ => some ["1"]
    fetchSize := fun _ => some 100
    capaMove := false
    uidMove := fun _ _ => false
    copy := fun _ fmt => fmt == "Folders/Bills"
    storeDeleted := fun _ => PResult.bad
    storeProcessed := fun _ => true
    expunge := PResult.ok }

/-- A live (non-dry-run) batch environment over `dupConn`. -/
def dupEnv : RunEnv :=
  { conn := dupConn
    cfg := { foldersToProcess := ["INBOX"], maxEmailsPerRun := 10, batchSize := 10,
             maxEmailSizeKb := 500, skipProcessed := true, dryRun := false }
    categories := EMAIL_CATEGORIES
    processor := fun _ => Except.ok (some "bills") }

/-- C2 counterexample: on `dupConn` the copy of message 1 succeeds and the
delete (`store '\\Deleted'`) fails, yet `move_email` reports success
(`True`, the code's comment calls it partial success) after marking the
message processed, and the batch coordinator counts the message in
`successCount` — refuting the claim that the outcome is reported as a
failure that is not counted as a success. -/
theorem partial_move_success_counterexample :
    dupConn.copy "1" "Folders/Bills" = true ∧
    dupConn.storeDeleted "1" = PResult.bad ∧
    (move_email dupConn "1" "INBOX" "Folders/Bills").success = true ∧
    (move_email dupConn "1" "INBOX" "Folders/Bills").markCalls = 1 ∧
    (process_emails dupEnv).processedCount = 1 ∧
    (process_emails dupEnv).successCount = 1 := by
  decide

/-- C2 amended: for every message on which the copy step of `move_email`
succeeds but the subsequent delete (`store '\\Deleted'`) or expunge step
returns a non-OK status, the message is marked processed and `move_email`
returns success (`True`), which the batch coordinator counts as a success
(`successCount` is incremented for that message). -/
theorem partial_move_marked_and_counted (c : Conn)
    (emailId sourceFolder destinationFolder : String)
    (hfe : folder_exists c destinationFolder = true)
    (hsel : 0 < select_folder c sourceFolder)
    (hmv : (c.capaMove && c.uidMove emailId destinationFolder) = false)
    (hcopy : (formatsToTryCopy destinationFolder).any (fun fmt => c.copy emailId fmt) = true)
    (hfail : c.storeDeleted emailId = PResult.bad ∨
             (c.storeDeleted emailId = PResult.ok ∧ c.expunge = PResult.bad)) :
    move_email c emailId sourceFolder destinationFolder
      = { success := true, markCalls := 1, movedOut := false, attempts := 1, sleeps := 0 } ∧
    ∀ (env : RunEnv) (acc : Counts) (category : String),
      env.conn = c → env.cfg.dryRun = false →
      fetch_email c env.cfg.maxEmailSizeKb emailId = some ⟨emailId⟩ →
      env.processor ⟨emailId⟩ = Except.ok (some category) →
      category ≠ "" →
      env.categories.lookup category = some destinationFolder →
      (processOne env sourceFolder acc emailId).1.success = acc.success + 1 := by
  have hmove : move_email c emailId sourceFolder destinationFolder
      = { success := true, markCalls := 1, movedOut := false, attempts := 1, sleeps := 0 } := by
    unfold move_email
    rw [hfe]
    rw [if_neg (by simp)]
    rw [if_neg (by omega)]
    show moveRetryLoop c emailId destinationFolder 3 = _
    rw [moveRetryLoop]
    rw [if_neg (by simp [hmv])]
    rcases hfail with hbad | ⟨hok, hexp⟩
    · rw [if_neg (by simp [hcopy]), hbad]
    · rw [if_neg (by simp [hcopy]), hok, hexp]
  refine ⟨hmove, ?_⟩
  intro env acc category hc hdry hfetch hproc hne hlook
  unfold processOne
  rw [hc, hfetch]
  dsimp only
  rw [hproc]
  dsimp only
  rw [if_neg (by simpa using hne)]
  rw [hlook]
  simp [hdry, hfe, hmove]

theorem partial_move_marked_and_counted_witness :
    (folder_exists dupConn "Folders/Bills" = true ∧
     0 < select_folder dupConn "INBOX" ∧
     (dupConn.capaMove && dupConn.uidMove "1" "Folders/Bills") = false ∧
     (formatsToTryCopy "Folders/Bills").any (fun fmt => dupConn.copy "1" fmt) = true ∧
     dupConn.storeDeleted "1" = PResult.bad) ∧
    move_email dupConn "1" "INBOX" "Folders/Bills"
      = { success := true, markCalls := 1, movedOut := false, attempts := 1, sleeps := 0 } ∧
    (processOne dupEnv "INBOX" { processed := 0, success := 0 } "1").1.success = 1 :=
  ⟨⟨by decide, by decide, by decide, by decide, by decide⟩,
   (partial_move_marked_and_counted dupConn "1" "INBOX" "Folders/Bills"
      (by decide) (by decide) (by decide) (by decide) (Or.inl (by decide))).1,
   (partial_move_marked_and_counted dupConn "1" "INBOX" "Folders/Bills"
      (by decide) (by decide) (by decide) (by decide) (Or.inl (by decide))).2
     dupEnv { processed := 0, success := 0 } "bills" rfl rfl (by decide) rfl (by decide) (by decide)⟩

/-- C3: when the destination folder is resolvable (`folder_exists` holds)
and the source folder selects, but the backend's native MOVE and every
copy attempt fail (by exception or non-OK status, both folded into the
failing result values), the retry loop runs exactly 3 attempts with the
fixed delay between them (2 sleeps), then marks the message processed and
returns the failure result.  `move_email` is a total function of the
model, so no exception escapes to the caller. -/
theorem move_retry_exhaustion (c : Conn) (emailId sourceFolder destinationFolder : String)
    (hfe : folder_exists c destinationFolder = true)
    (hsel : 0 < select_folder c sourceFolder)
    (hmv : (c.capaMove && c.uidMove emailId destinationFolder) = false)
    (hcopy : ∀ fmt ∈ formatsToTryCopy destinationFolder, c.copy emailId fmt = false) :
    move_email c emailId sourceFolder destinationFolder
      = { success := false, markCalls := 1, movedOut := false, attempts := 3, sleeps := 2 } := by
  have hany : ((formatsToTryCopy destinationFolder).any fun fmt => c.copy emailId fmt) = false := by
    simp only [List.any_eq_false]
    intro fmt hmem
    simp [hcopy fmt hmem]
  unfold move_email
  rw [hfe]
  rw [if_neg (by simp)]
  rw [if_neg (by omega)]
  show moveRetryLoop c emailId destinationFolder 3 = _
  rw [moveRetryLoop, if_neg (by simp [hmv]), if_pos (by simp [hany])]
  rw [if_neg (by simp)]
  rw [moveRetryLoop, if_neg (by simp [hmv]), if_pos (by simp [hany])]
  rw [if_neg (by simp)]
  rw [moveRetryLoop, if_neg (by simp [hmv]), if_pos (by simp [hany])]
  rw [if_pos (by simp)]
  rfl

/-- A backend on which the destination exists but every MOVE and copy
attempt fails. -/
def retryFailConn : Conn :=
  { connectOk := true
    listFolders := ["Folders/Bills"]
    select := fun fmt => if fmt = "INBOX" then some 1 else none
    search := fun _ => some ["1"]
    fetchSize := fun _ => some 100
    capaMove := false
    uidMove := fun _ _ => false
    copy := fun _ _ => false
    storeDeleted := fun _ => PResult.ok
    storeProcessed := fun _ => true
    expunge := PResult.ok }

theorem move_retry_exhaustion_witness :
    (folder_exists retryFailConn "Folders/Bills" = true ∧
     0 < select_folder retryFailConn "INBOX" ∧
     (retryFailConn.capaMove && retryFailConn.uidMove "1" "Folders/Bills") = false ∧
     ∀ fmt ∈ formatsToTryCopy "Folders/Bills", retryFailConn.copy "1" fmt = false) ∧
    move_email retryFailConn "1" "INBOX" "Folders/Bills"
      = { success := false, markCalls := 1, movedOut := false, attempts := 3, sleeps := 2 } :=
  ⟨⟨by decide, by decide, by decide, by decide⟩,
   move_retry_exhaustion retryFailConn "1" "INBOX" "Folders/Bills"
     (by decide) (by decide) (by decide) (by decide)⟩

theorem processOne_processed_le (env : RunEnv) (sourceFolder : String) (acc : Counts)
    (emailId : String) :
    (processOne env sourceFolder acc emailId).1.processed ≤ acc.processed + 1 := by
  unfold processOne
  repeat' split
  all_goals dsimp only
  all_goals try split
  all_goals simp

theorem processIds_processed_le (env : RunEnv) (sourceFolder : String) :
    ∀ (ids : List String) (acc : Counts),
      (processIds env sourceFolder ids acc).1.processed ≤ acc.processed + ids.length := by
  intro ids
  induction ids with
  | nil => intro acc; simp [processIds]
  | cons headId rest ih =>
    intro acc
    rw [processIds]
    dsimp only
    have h1 := processOne_processed_le env sourceFolder acc headId
    have h2 := ih (processOne env sourceFolder acc headId).1
    simp only [List.length_cons]
    omega

theorem limited_length_le (ids : List String) (l : Nat) (hl : l ≠ 0) :
    (if l ≠ 0 ∧ ids.length > l then ids.take l else ids).length ≤ l := by
  split
  · exact List.length_take_le l ids
  next h => exact Nat.le_of_not_lt (fun hgt => h ⟨hl, hgt⟩)

theorem get_unprocessed_emails_length_le (c : Conn) (skipProcessed : Bool)
    (folderName : String) (l : Nat) (hl : l ≠ 0) :
    (get_unprocessed_emails c skipProcessed folderName (some l)).length ≤ l := by
  unfold get_unprocessed_emails
  split
  · simp
  · exact limited_length_le _ l hl

theorem processFolders_processed_le (env : RunEnv) :
    ∀ (folders : List String) (acc : Counts),
      (acc.processed : Int) ≤ env.cfg.maxEmailsPerRun →
      ((processFolders env folders acc).1.processed : Int) ≤ env.cfg.maxEmailsPerRun := by
  intro folders
  induction folders with
  | nil => intro acc h; simpa [processFolders] using h
  | cons folder rest ih =>
    intro acc h
    rw [processFolders]
    dsimp only
    split
    · exact h
    next hrem =>
      have hlne : (env.cfg.maxEmailsPerRun - (acc.processed : Int)).toNat ≠ 0 := by omega
      have hlen := get_unprocessed_emails_length_le env.conn env.cfg.skipProcessed folder _ hlne
      have hstep := processIds_processed_le env folder
        (get_unprocessed_emails env.conn env.cfg.skipProcessed folder
          (some (env.cfg.maxEmailsPerRun - (acc.processed : Int)).toNat)) acc
      apply ih
      omega

/-- C4: for every configuration with `max_emails_per_run = K ≥ 0` and
every mailbox state, `process_emails` counts at most `K` processed
messages: each per-folder query is capped at the remaining budget
`K - processed_count` and the folder loop breaks once that budget is
exhausted, so ids beyond the cap are never queried, fetched, or marked. -/
theorem run_cap_bounds_processed (env : RunEnv)
    (hK : 0 ≤ env.cfg.maxEmailsPerRun) :
    ((process_emails env).processedCount : Int) ≤ env.cfg.maxEmailsPerRun ∧
    ∀ (folderName : String) (budget : Nat), budget ≠ 0 →
      (get_unprocessed_emails env.conn env.cfg.skipProcessed folderName
        (some budget)).length ≤ budget := by
  constructor
  · unfold process_emails
    split
    · simpa using hK
    · exact processFolders_processed_le env env.cfg.foldersToProcess _ (by simpa using hK)
  · intro folderName budget hb
    exact get_unprocessed_emails_length_le env.conn env.cfg.skipProcessed folderName budget hb

/-- A batch environment whose single folder offers three unprocessed
messages while the run cap is `K = 1`. -/
def capEnv : RunEnv :=
  { conn := { demoConn with search := fun _ => some ["1", "2", "3"] }
    cfg := { foldersToProcess := ["INBOX"], maxEmailsPerRun := 1, batchSize := 10,
             maxEmailSizeKb := 500, skipProcessed := true, dryRun := true }
    categories := EMAIL_CATEGORIES
    processor := fun _ => Except.ok (some "bills") }

theorem run_cap_bounds_processed_witness :
    (0 ≤ capEnv.cfg.maxEmailsPerRun) ∧
    ((process_emails capEnv).processedCount : Int) ≤ capEnv.cfg.maxEmailsPerRun ∧
    (process_emails capEnv).processedCount = 1 ∧
    (capEnv.conn.search "NOT KEYWORD PROCESSED" = some ["1", "2", "3"]) :=
  ⟨by decide, (run_cap_bounds_processed capEnv (by decide)).1, by decide, by decide⟩

/-- C5: whenever the oracle's effective response (after the chat-endpoint
to completion-endpoint fallback) is absent, empty, or contains no
configured category name as a case-insensitive substring, the classifier
returns the fallback `'requires_manual_intervention'`, whose configured
destination folder is `'Folders/ManualReview'`; classification failure is
never fatal (the classifier is total and never propagates a failure). -/
theorem oracle_fallback_closure (chatResult complResult : Option String)
    (h : ∀ s, llmRawResult chatResult complResult = some s → s ≠ "" →
         ∀ category ∈ EmailClassifier.initCategories,
           categoryOccursIn category (normalizeResponse s) = false) :
    EmailClassifier.classify_email true chatResult complResult EmailClassifier.initCategories
      = some "requires_manual_intervention" ∧
    EMAIL_CATEGORIES.lookup "requires_manual_intervention" = some "Folders/ManualReview" := by
  refine ⟨?_, by decide⟩
  unfold EmailClassifier.classify_email LLMClient.classify_email
  cases hr : llmRawResult chatResult complResult with
  | none => simp
  | some s =>
    by_cases hs : s = ""
    · simp [hs]
    · have hnone : (EmailClassifier.initCategories.find?
          (fun category => categoryOccursIn category (normalizeResponse s))) = none := by
        rw [List.find?_eq_none]
        intro category hcat
        simp [h s hr hs category hcat]
      simp [hs, hnone]

theorem oracle_fallback_closure_witness :
    (∀ s, llmRawResult (some "gibberish") none = some s → s ≠ "" →
       ∀ category ∈ EmailClassifier.initCategories,
         categoryOccursIn category (normalizeResponse s) = false) ∧
    (EmailClassifier.classify_email true (some "gibberish") none EmailClassifier.initCategories
       = some "requires_manual_intervention" ∧
     EMAIL_CATEGORIES.lookup "requires_manual_intervention" = some "Folders/ManualReview") := by
  have h : ∀ s, llmRawResult (some "gibberish") none = some s → s ≠ "" →
      ∀ category ∈ EmailClassifier.initCategories,
        categoryOccursIn category (normalizeResponse s) = false := by
    intro s hs hne
    have : s = "gibberish" := by simpa [llmRawResult] using hs.symm
    subst this
    decide
  exact ⟨h, oracle_fallback_closure (some "gibberish") none h⟩

theorem find_first_decomposition {α : Type} (p : α → Bool) :
    ∀ (l : List α) (a : α), l.find? p = some a →
      p a = true ∧ ∃ pre post, l = pre ++ a :: post ∧ ∀ x ∈ pre, p x = false := by
  intro l
  induction l with
  | nil => intro a h; simp at h
  | cons b t ih =>
    intro a h
    by_cases hb : p b = true
    · rw [List.find?_cons_of_pos t hb] at h
      injection h with h
      subst h
      exact ⟨hb, [], t, rfl, by simp⟩
    · have hb' : p b = false := by simpa using hb
      rw [List.find?_cons_of_neg t hb] at h
      obtain ⟨hpa, pre, post, heq, hpre⟩ := ih a h
      refine ⟨hpa, b :: pre, post, by rw [heq, List.cons_append], ?_⟩
      intro x hx
      rcases List.mem_cons.mp hx with hx | hx
      · rw [hx]; exact hb'
      · exact hpre x hx

/-- C6: for every non-empty oracle response text and every ordered list of
category names, the LLM client's matching lowers the stripped response and
tests each category name (lowered) for substring occurrence in list
order: the result is `none` exactly when no category name occurs, and a
returned category is one that occurs and is preceded in the list only by
categories that do not occur (first match wins). -/
theorem llm_first_match_semantics (s : String) (complResult : Option String)
    (categories : List String) (hs : s ≠ "") :
    (LLMClient.classify_email (some s) complResult categories = none ↔
       ∀ category ∈ categories, categoryOccursIn category (normalizeResponse s) = false) ∧
    (∀ c, LLMClient.classify_email (some s) complResult categories = some c →
       categoryOccursIn c (normalizeResponse s) = true ∧
       ∃ pre post, categories = pre ++ c :: post ∧
         ∀ category ∈ pre, categoryOccursIn category (normalizeResponse s) = false) := by
  have hcl : LLMClient.classify_email (some s) complResult categories
      = categories.find? (fun category => categoryOccursIn category (normalizeResponse s)) := by
    unfold LLMClient.classify_email
    simp [llmRawResult, hs]
  rw [hcl]
  constructor
  · rw [List.find?_eq_none]
    constructor
    · intro h category hcat
      simpa using h category hcat
    · intro h category hcat
      simp [h category hcat]
  · intro c hc
    exact find_first_decomposition _ categories c hc

theorem llm_first_match_semantics_witness :
    ("This looks like a Bills notification." ≠ "") ∧
    LLMClient.classify_email (some "This looks like a Bills notification.") none
      EmailClassifier.initCategories = some "bills" ∧
    (∀ c, LLMClient.classify_email (some "This looks like a Bills notification.") none
        EmailClassifier.initCategories = some c →
      categoryOccursIn c (normalizeResponse "This looks like a Bills notification.") = true ∧
      ∃ pre post, EmailClassifier.initCategories = pre ++ c :: post ∧
        ∀ category ∈ pre,
          categoryOccursIn category
            (normalizeResponse "This looks like a Bills notification.") = false) :=
  ⟨by decide, by decide,
   (llm_first_match_semantics "This looks like a Bills notification." none
      EmailClassifier.initCategories (by decide)).2⟩

/-- C7: a message whose raw size exceeds `max_email_size_kb` makes
`fetch_email` return nothing, and the batch loop's per-id step then skips
the message entirely: the counters are unchanged (not counted in
`processed_count`), the recorded outcome is the skip outcome, and neither
a mark nor a move is performed, so the message stays eligible for the
next run. -/
theorem oversize_email_skipped (env : RunEnv) (sourceFolder emailId : String) (acc : Counts)
    (rawLen : Nat) (hfetch : env.conn.fetchSize emailId = some rawLen)
    (hover : rawLen > env.cfg.maxEmailSizeKb * 1024) :
    fetch_email env.conn env.cfg.maxEmailSizeKb emailId = none ∧
    processOne env sourceFolder acc emailId = (acc, MsgOutcome.fetchFailed) ∧
    MsgOutcome.fetchFailed.markInvoked = false ∧
    MsgOutcome.fetchFailed.movedOut = false := by
  have hnone : fetch_email env.conn env.cfg.maxEmailSizeKb emailId = none := by
    unfold fetch_email
    rw [hfetch]
    simp [hover]
  refine ⟨hnone, ?_, by decide, by decide⟩
  unfold processOne
  rw [hnone]

/-- A batch environment whose single message is 1 MB against a 500 KB
ceiling. -/
def oversizeEnv : RunEnv :=
  { conn := { demoConn with fetchSize := fun _ => some 1048576 }
    cfg := { foldersToProcess := ["INBOX"], maxEmailsPerRun := 10, batchSize := 10,
             maxEmailSizeKb := 500, skipProcessed := true, dryRun := false }
    categories := EMAIL_CATEGORIES
    processor := fun _ => Except.ok (some "bills") }

theorem oversize_email_skipped_witness :
    (oversizeEnv.conn.fetchSize "1" = some 1048576 ∧
     1048576 > oversizeEnv.cfg.maxEmailSizeKb * 1024) ∧
    (fetch_email oversizeEnv.conn oversizeEnv.cfg.maxEmailSizeKb "1" = none ∧
     processOne oversizeEnv "INBOX" { processed := 0, success := 0 } "1"
       = ({ processed := 0, success := 0 }, MsgOutcome.fetchFailed) ∧
     MsgOutcome.fetchFailed.markInvoked = false ∧
     MsgOutcome.fetchFailed.movedOut = false) :=
  ⟨⟨by decide, by decide⟩,
   oversize_email_skipped oversizeEnv "INBOX" "1" { processed := 0, success := 0 } 1048576
     (by decide) (by decide)⟩

theorem lookup_cons_self {β : Type} (k : String) (b : β) (t : List (String × β)) :
    ((k, b) :: t).lookup k = some b := by
  simp [List.lookup]

theorem lookup_cons_ne {β : Type} (a k : String) (b : β) (t : List (String × β)) (h : a ≠ k) :
    ((k, b) :: t).lookup a = t.lookup a := by
  rw [List.lookup, beq_eq_false_iff_ne.mpr h]

theorem lookup_eq_none_of_not_mem_keys {β : Type} (k : String) :
    ∀ (m : List (String × β)), k ∉ m.map Prod.fst → m.lookup k = none := by
  intro m
  induction m with
  | nil => intro _; rfl
  | cons p t ih =>
    intro h
    simp only [List.map_cons, List.mem_cons] at h
    push_neg at h
    obtain ⟨h1, h2⟩ := h
    obtain ⟨a, b⟩ := p
    rw [lookup_cons_ne k a b t h1]
    exact ih h2

theorem lookup_eraseP_self {β : Type} (k : String) :
    ∀ (m : List (String × β)), (m.map Prod.fst).Nodup →
      (m.eraseP (fun p => p.1 == k)).lookup k = none := by
  intro m
  induction m with
  | nil => intro _; rfl
  | cons p t ih =>
    intro hnd
    simp only [List.map_cons, List.nodup_cons] at hnd
    obtain ⟨hp, ht⟩ := hnd
    obtain ⟨a, b⟩ := p
    by_cases hk : a = k
    · subst hk
      rw [List.eraseP_cons_of_pos (by simp)]
      exact lookup_eq_none_of_not_mem_keys a t hp
    · rw [List.eraseP_cons_of_neg (by simp [hk])]
      rw [lookup_cons_ne k a b _ (fun he => hk he.symm)]
      exact ih ht

theorem lookup_eraseP_ne {β : Type} (k other : String) (hne : other ≠ k) :
    ∀ (m : List (String × β)),
      (m.eraseP (fun p => p.1 == k)).lookup other = m.lookup other := by
  intro m
  induction m with
  | nil => rfl
  | cons p t ih =>
    obtain ⟨a, b⟩ := p
    by_cases hk : a = k
    · subst hk
      rw [List.eraseP_cons_of_pos (by simp)]
      rw [lookup_cons_ne other a b t hne]
    · rw [List.eraseP_cons_of_neg (by simp [hk])]
      by_cases ho : other = a
      · subst ho
        rw [lookup_cons_self other b (t.eraseP _), lookup_cons_self other b t]
      · rw [lookup_cons_ne other a b _ ho, lookup_cons_ne other a b t ho]
        exact ih

/-- C8: removing the distinguished fallback category
`'requires_manual_intervention'` is rejected by both
`FolderManager.remove_category_folder` and
`EmailClassifier.remove_category` — both return `False` and leave the
category state unchanged — while removing any other existing category
succeeds and deletes exactly that entry from the category map (the
other keys keep their bindings). -/
theorem fallback_category_irremovable (categories : List String)
    (categoryMap : List (String × String))
    (hnd : (categoryMap.map Prod.fst).Nodup) :
    FolderManager.remove_category_folder categoryMap "requires_manual_intervention"
      = (false, categoryMap) ∧
    EmailClassifier.remove_category categories categoryMap "requires_manual_intervention"
      = (false, categories, categoryMap) ∧
    (∀ category, category ≠ "requires_manual_intervention" →
       (categoryMap.lookup category).isSome →
       (FolderManager.remove_category_folder categoryMap category).1 = true ∧
       (FolderManager.remove_category_folder categoryMap category).2.lookup category = none ∧
       ∀ other, other ≠ category →
         (FolderManager.remove_category_folder categoryMap category).2.lookup other
           = categoryMap.lookup other) ∧
    (∀ category, category ≠ "requires_manual_intervention" →
       category ∈ categories →
       (EmailClassifier.remove_category categories categoryMap category).1 = true ∧
       (EmailClassifier.remove_category categories categoryMap category).2.1
         = categories.erase category ∧
       (EmailClassifier.remove_category categories categoryMap category).2.2.lookup category
         = none ∧
       ∀ other, other ≠ category →
         (EmailClassifier.remove_category categories categoryMap category).2.2.lookup other
           = categoryMap.lookup other) := by
  refine ⟨?_, ?_, ?_, ?_⟩
  · unfold FolderManager.remove_category_folder
    split
    · rfl
    · rw [if_pos rfl]
  · unfold EmailClassifier.remove_category
    split
    · rfl
    · rw [if_pos rfl]
  · intro category hne hsome
    obtain ⟨v, hv⟩ := Option.isSome_iff_exists.mp hsome
    unfold FolderManager.remove_category_folder
    rw [hv]
    rw [if_neg (by simp)]
    rw [if_neg hne]
    refine ⟨rfl, ?_, ?_⟩
    · exact lookup_eraseP_self category categoryMap hnd
    · intro other hother
      exact lookup_eraseP_ne category other hother categoryMap
  · intro category hne hmem
    unfold EmailClassifier.remove_category
    rw [if_neg (not_not_intro hmem)]
    rw [if_neg hne]
    refine ⟨rfl, rfl, ?_, ?_⟩
    · dsimp only
      split
      · exact lookup_eraseP_self category categoryMap hnd
      next hns => exact Option.not_isSome_iff_eq_none.mp hns
    · intro other hother
      dsimp only
      split
      · exact lookup_eraseP_ne category other hother categoryMap
      · rfl

theorem fallback_category_irremovable_witness :
    (EMAIL_CATEGORIES.map Prod.fst).Nodup ∧
    FolderManager.remove_category_folder EMAIL_CATEGORIES "requires_manual_intervention"
      = (false, EMAIL_CATEGORIES) ∧
    EmailClassifier.remove_category EmailClassifier.initCategories EMAIL_CATEGORIES
      "requires_manual_intervention"
      = (false, EmailClassifier.initCategories, EMAIL_CATEGORIES) ∧
    (FolderManager.remove_category_folder EMAIL_CATEGORIES "bills").1 = true :=
  ⟨by decide,
   (fallback_category_irremovable EmailClassifier.initCategories EMAIL_CATEGORIES (by decide)).1,
   (fallback_category_irremovable EmailClassifier.initCategories EMAIL_CATEGORIES (by decide)).2.1,
   ((fallback_category_irremovable EmailClassifier.initCategories EMAIL_CATEGORIES
       (by decide)).2.2.1 "bills" (by decide) (by decide)).1⟩

/-- C9 counterexample: at the destination label `"Bills"` the ordered
candidate list tried by the copy fallback of `move_email` is not the list
probed by `select_folder` — the copy list has two extra entries. -/
theorem copy_candidates_differ_counterexample :
    formatsToTryCopy "Bills" ≠ formatsToTrySelect "Bills" ∧
    (formatsToTryCopy "Bills").length = 8 ∧
    (formatsToTrySelect "Bills").length = 6 := by
  decide

/-- C9 amended: for every destination label, the ordered candidate-name
list tried by the copy fallback inside `move_email` equals the ordered
candidate-name list probed by `select_folder` extended with two extra
candidates appended at the end: the upper-cased and then the lower-cased
label.  The first six candidates coincide in the same priority order. -/
theorem copy_candidates_extend_select_candidates (name : String) :
    formatsToTryCopy name = formatsToTrySelect name ++ [strUpper name, strLower name] :=
  rfl

/-- C10: a source folder whose select reports zero messages is handled by
`get_unprocessed_emails` exactly like one whose selection failed with the
`-1` code: the `<= 0` guard returns the empty list in both cases, and no
search is issued against the folder (the result does not depend on the
connection's search primitive at all). -/
theorem empty_folder_like_failed_select (c : Conn) (skipProcessed : Bool)
    (folderName : String) (limit : Option Nat)
    (searchFn : String → Option (List String))
    (h : select_folder c folderName ≤ 0) :
    get_unprocessed_emails c skipProcessed folderName limit = [] ∧
    get_unprocessed_emails { c with search := searchFn } skipProcessed folderName limit = [] := by
  constructor
  · unfold get_unprocessed_emails
    rw [if_pos h]
  · unfold get_unprocessed_emails
    rw [if_pos (show select_folder { c with search := searchFn } folderName ≤ 0 from h)]

/-- A backend with a selectable but empty folder `"Empty"`. -/
def emptyFolderConn : Conn :=
  { connectOk := true
    listFolders := []
    select := fun fmt => if fmt = "Empty" then some 0 else none
    search := fun _ => some ["9"]
    fetchSize := fun _ => some 100
    capaMove := false
    uidMove := fun _ _ => false
    copy := fun _ _ => false
    storeDeleted := fun _ => PResult.ok
    storeProcessed := fun _ => true
    expunge := PResult.ok }

theorem empty_folder_like_failed_select_witness :
    (select_folder emptyFolderConn "Empty" = 0 ∧
     select_folder emptyFolderConn "Empty" ≤ 0) ∧
    (get_unprocessed_emails emptyFolderConn true "Empty" (some 5) = [] ∧
     get_unprocessed_emails { emptyFolderConn with search := fun _ => some ["7", "8"] }
       true "Empty" (some 5) = []) :=
  ⟨⟨by decide, by decide⟩,
   empty_folder_like_failed_select emptyFolderConn true "Empty" (some 5)
     (fun _ => some ["7", "8"]) (by decide)⟩
